import Mathlib

/-!
Shallow embedding of the reconciliation / session-aggregation pipeline of
`src/app.py` (a pandas + Streamlit dashboard for a Dialogflow support
chatbot), together with proofs about the claims on that pipeline.

Modelling conventions
* A pandas `DataFrame` cell holding `NaN`/`NaT`/`None` is modelled as `none`;
  a present value as `some v`.  Timestamps are rationals (minutes); `NaT`
  is `none`.
* A pandas frame may lack a column entirely.  Where the presence of a column
  changes behaviour (e.g. `df.get(col, default)` returning a scalar default
  on which `.astype` then raises, or the `context.*`-to-flat copy loop of
  `transform_logs_to_sessions`), the frame carries an explicit presence flag
  and every read of such a column goes through a flag-gated accessor, so
  that an absent column reads as `none`.  Columns whose presence has no
  behavioural effect beyond "has at least one non-null value" (the five
  non-`protocolo` session-id candidates) are modelled by the values alone.
* `np.random` / `np.random.default_rng(42)` are modelled by an abstract
  stream `g : ℕ → ℚ` of i.i.d.-uniform draws in `[0,1)` together with a
  cursor; `integers(a,b)` is `a + ⌊u·(b-a)⌋`, `uniform(a,b)` is
  `a + (b-a)·u`, `choice(xs)` is `xs[⌊u·|xs|⌋]`, and the weighted
  `choice(priorities, p=[.15,.35,.5])` is inverse-CDF sampling.
* `df.sort_values('timestamp')` is modelled as a stable sort with `NaT`
  last (pandas `na_position='last'`); `groupby` enumerates the distinct
  non-null keys in ascending order and drops null keys.
* Exceptions raised by the Python code (`KeyError` from `sort_values` on a
  missing column, `AttributeError` from `''.astype(str)` when
  `df.get(col, '')` returned the scalar default) are modelled with `Except`.
-/

/-- ASCII lower-casing, as used to model pandas `str.contains(..., case=False)`.
Only ASCII letters occur in the matching vocabulary of the source, so this
matches Python's Unicode lower-casing on all relevant inputs. -/
def asciiLower (s : String) : String := String.mk (s.data.map Char.toLower)

/-- Check that `p` occurs at the start of `s` (character lists). -/
def prefAux : List Char → List Char → Bool
  | [], _ => true
  | _ :: _, [] => false
  | a :: ps, b :: ss => a == b && prefAux ps ss

/-- Check that `p` occurs somewhere inside `s` (character lists). -/
def infixAux (p : List Char) : List Char → Bool
  | [] => p.isEmpty
  | c :: t => prefAux p (c :: t) || infixAux p t

/-- Substring test: models `str.contains(pat, regex-free)` on a single cell. -/
def strHasSub (s pat : String) : Bool := infixAux pat.toList s.toList

/-- Lexicographic comparison of character lists by code point: the order
Python uses on `str`, hence the order of pandas `groupby` keys. -/
def charListLe : List Char → List Char → Bool
  | [], _ => true
  | _ :: _, [] => false
  | a :: as, b :: bs => if a = b then charListLe as bs else decide (a < b)

def strLeB (a b : String) : Bool := charListLe a.data b.data

def strLeP (a b : String) : Prop := strLeB a b = true

instance : DecidableRel strLeP := fun a b => inferInstanceAs (Decidable (strLeB a b = true))

/-- Minimum of a list of rationals, `none` on the empty list: models
`Series.min()` over the non-null cells (pandas skips `NaN` and returns
`NaT`/`NaN` when nothing remains). -/
def minQ : List ℚ → Option ℚ
  | [] => none
  | x :: xs =>
    match minQ xs with
    | none => some x
    | some m => some (min x m)

/-- First non-`none` entry: models `Series.dropna().iloc[0]` (with `none`
for an all-null column). -/
def firstSome {α : Type} (l : List (Option α)) : Option α := (l.filterMap id).head?

/-- Decimal digit characters of `n`, most significant first; `fuel` bounds
the recursion depth (`n < fuel` suffices). -/
def pyStrAux : ℕ → ℕ → List Char
  | 0, _ => []
  | fuel + 1, n =>
    if n < 10 then [Nat.digitChar n]
    else pyStrAux fuel (n / 10) ++ [Nat.digitChar (n % 10)]

/-- Python `str(...)` on a non-negative integer, used for
`df.index.astype(str)`: decimal digits, most significant first. -/
def pyStr (n : ℕ) : String := String.mk (pyStrAux (n + 1) n)

/-- Python truthiness for an optional string cell (`None`, `NaN` and `''`
are falsy). -/
def pyTruthy (o : Option String) : Bool :=
  match o with
  | none => false
  | some s => s != ""

/-- `o or default` for an optional string cell, Python truthiness. -/
def pyOrD (o : Option String) (d : String) : String :=
  match o with
  | none => d
  | some s => if s = "" then d else s

/-- Exceptions of the embedded pandas code. -/
inductive PyErr
  | keyError (col : String)
  | attributeError (msg : String)
deriving DecidableEq, Repr

/-- One raw log entry (one Mongo document after `pd.json_normalize`): the
possible flat and `context.`-nested business fields read by the code.
`ctx_x` models column `context.x`. -/
structure LogRow where
  timestamp : Option ℚ := none
  message : Option String := none
  intentName : Option String := none
  ctx_intentName : Option String := none
  queryText : Option String := none
  ctx_queryText : Option String := none
  component : Option String := none
  dialogflowSessionId : Option String := none
  session_id : Option String := none
  sessionId : Option String := none
  ctx_dialogflowSessionId : Option String := none
  ctx_session_id : Option String := none
  protocolo : Option String := none
  ctx_protocolo : Option String := none
  prioridade : Option String := none
  ctx_prioridade : Option String := none
  uf : Option String := none
  ctx_uf : Option String := none
  channel : Option String := none
  ctx_channel : Option String := none
deriving DecidableEq, Repr

/-- Which columns are present in the raw-log frame (a pandas frame built by
`json_normalize` only has the columns some document mentions). Only the
columns whose presence changes behaviour are tracked. -/
structure ColFlags where
  hasTimestamp : Bool := true
  hasMessage : Bool := true
  hasComponent : Bool := true
  hasIntentName : Bool := true
  hasCtxIntentName : Bool := false
  hasQueryText : Bool := true
  hasCtxQueryText : Bool := false
  hasProtocolo : Bool := true
  hasCtxProtocolo : Bool := false
  hasPrioridade : Bool := false
  hasCtxPrioridade : Bool := false
  hasUf : Bool := false
  hasCtxUf : Bool := false
  hasChannel : Bool := false
  hasCtxChannel : Bool := false
deriving DecidableEq, Repr

/-- The raw-log frame handed to the Reconciler / Session Aggregator. -/
structure LogFrame where
  cols : ColFlags
  rows : List LogRow
deriving DecidableEq, Repr

/-- Flag-gated column reads: an absent column reads as null. -/
def cTimestamp (fl : ColFlags) (r : LogRow) : Option ℚ :=
  if fl.hasTimestamp then r.timestamp else none

def cMessage (fl : ColFlags) (r : LogRow) : Option String :=
  if fl.hasMessage then r.message else none

def cComponent (fl : ColFlags) (r : LogRow) : Option String :=
  if fl.hasComponent then r.component else none

def cIntentName (fl : ColFlags) (r : LogRow) : Option String :=
  if fl.hasIntentName then r.intentName else none

def cProtocolo (fl : ColFlags) (r : LogRow) : Option String :=
  if fl.hasProtocolo then r.protocolo else none

def cCtxProtocolo (fl : ColFlags) (r : LogRow) : Option String :=
  if fl.hasCtxProtocolo then r.ctx_protocolo else none

/-- Effective columns after the `context.*`-to-flat normalisation step of
`transform_logs_to_sessions` (src/app.py lines 449-464): the flat name wins
when its column exists, else the `context.` column is copied over. -/
def effHasIntentName (fl : ColFlags) : Bool := fl.hasIntentName || fl.hasCtxIntentName

def effIntentName (fl : ColFlags) (r : LogRow) : Option String :=
  if fl.hasIntentName then r.intentName
  else if fl.hasCtxIntentName then r.ctx_intentName else none

def effHasQueryText (fl : ColFlags) : Bool := fl.hasQueryText || fl.hasCtxQueryText

def effQueryText (fl : ColFlags) (r : LogRow) : Option String :=
  if fl.hasQueryText then r.queryText
  else if fl.hasCtxQueryText then r.ctx_queryText else none

def effHasProtocolo (fl : ColFlags) : Bool := fl.hasProtocolo || fl.hasCtxProtocolo

def effProtocolo (fl : ColFlags) (r : LogRow) : Option String :=
  if fl.hasProtocolo then r.protocolo
  else if fl.hasCtxProtocolo then r.ctx_protocolo else none

def effHasPrioridade (fl : ColFlags) : Bool := fl.hasPrioridade || fl.hasCtxPrioridade

def effPrioridade (fl : ColFlags) (r : LogRow) : Option String :=
  if fl.hasPrioridade then r.prioridade
  else if fl.hasCtxPrioridade then r.ctx_prioridade else none

def effHasUf (fl : ColFlags) : Bool := fl.hasUf || fl.hasCtxUf

def effUf (fl : ColFlags) (r : LogRow) : Option String :=
  if fl.hasUf then r.uf
  else if fl.hasCtxUf then r.ctx_uf else none

def effHasChannel (fl : ColFlags) : Bool := fl.hasChannel || fl.hasCtxChannel

def effChannel (fl : ColFlags) (r : LogRow) : Option String :=
  if fl.hasChannel then r.channel
  else if fl.hasCtxChannel then r.ctx_channel else none

/-- The canonical output row (one per conversation), as produced by any of
the three Reconciler states.  Fields that some path can leave null are
`Option`s. -/
structure ConversationRecord where
  conversation_id : Option String
  channel : String
  uf : Option String
  priority : Option String
  created_at : Option ℚ
  completed_at : Option ℚ
  notification_sent_at : Option ℚ
  fallback : Bool
  fallback_phrase : Option String
  slots_filled : ℕ
  slots_total : ℕ
  escalated : Bool
  abandoned : Bool
  intent_final : String
  protocol : Option String
deriving DecidableEq, Repr

/-- One structured-store case row, the columns selected by
`load_denuncias_from_postgres` (src/app.py lines 535-540). -/
structure DenunciaRow where
  protocolo : Option String := none
  nome : Option String := none
  email : Option String := none
  descricao : Option String := none
  prioridade : Option String := none
  status : Option String := none
  uf : Option String := none
  created_at : Option ℚ := none
  titulo : Option String := none
  data_ocorrido : Option ℚ := none
deriving DecidableEq, Repr

/-! ### Session Aggregator (`transform_logs_to_sessions`, src/app.py 416-521) -/

/-- The ordered candidate list for the session identifier
(src/app.py lines 432-436). -/
inductive SessCand
  | dfSess | sessU | sessC | ctxDfSess | ctxSessU | protCand
deriving DecidableEq, Repr

/-- Read one session-id candidate column from a row.  The five dedicated
candidates are modelled by their values alone (their column counts as
present exactly when some row is non-null, which is all the code observes);
the `protocolo` candidate is shared with the business field and is gated by
its presence flag. -/
def readCand (fl : ColFlags) : SessCand → LogRow → Option String
  | .dfSess => fun r => r.dialogflowSessionId
  | .sessU => fun r => r.session_id
  | .sessC => fun r => r.sessionId
  | .ctxDfSess => fun r => r.ctx_dialogflowSessionId
  | .ctxSessU => fun r => r.ctx_session_id
  | .protCand => fun r => cProtocolo fl r

def candList : List SessCand :=
  [.dfSess, .sessU, .sessC, .ctxDfSess, .ctxSessU, .protCand]

/-- The winning session-id column: the first candidate whose column has at
least one non-null value, chosen once for the whole batch
(src/app.py lines 438-443). -/
def pickSessionCol (fl : ColFlags) (rows : List LogRow) : Option SessCand :=
  candList.find? (fun c => rows.any (fun r => (readCand fl c r).isSome))

/-- Each row paired with its resolved session key (`df['session_id']`).
When no candidate wins, every row falls back to `str(df.index)`
(src/app.py line 447); this happens before the sort, on the original row
positions. -/
def keyedRows (fl : ColFlags) (rows : List LogRow) : List (Option String × LogRow) :=
  match pickSessionCol fl rows with
  | some c => rows.map (fun r => (readCand fl c r, r))
  | none => rows.enum.map (fun p => (some (pyStr p.1), p.2))

/-- Sort key for `sort_values('timestamp')`: `NaT` goes last. -/
def tsKey (o : Option ℚ) : WithTop ℚ :=
  match o with
  | none => ⊤
  | some q => (q : WithTop ℚ)

def tsLe (a b : Option String × LogRow) : Prop :=
  tsKey a.2.timestamp ≤ tsKey b.2.timestamp

instance : DecidableRel tsLe := fun a b =>
  inferInstanceAs (Decidable (tsKey a.2.timestamp ≤ tsKey b.2.timestamp))

instance : IsTotal (Option String × LogRow) tsLe :=
  ⟨fun a b => le_total (tsKey a.2.timestamp) (tsKey b.2.timestamp)⟩

instance : IsTrans (Option String × LogRow) tsLe :=
  ⟨fun _ _ _ hab hbc => le_trans hab hbc⟩

/-- `df.sort_values('timestamp')` on the keyed rows. -/
def sortedKeyed (fl : ColFlags) (rows : List LogRow) : List (Option String × LogRow) :=
  List.insertionSort tsLe (keyedRows fl rows)

/-- The distinct non-null group keys in ascending order
(`groupby('session_id')` drops null keys and sorts the rest). -/
def sessionKeys (fl : ColFlags) (rows : List LogRow) : List String :=
  List.insertionSort strLeP ((sortedKeyed fl rows).filterMap Prod.fst).dedup

/-- The per-session summary record built from one group
(src/app.py lines 476-517).  `sk` is the timestamp-sorted keyed frame and
`k` the group's session id; only called when the `message` and `component`
columns exist. -/
def mkSessionRecord (fl : ColFlags) (sk : List (Option String × LogRow)) (k : String) :
    ConversationRecord :=
  let grp : List LogRow := (sk.filter (fun p => p.1 == some k)).map Prod.snd
  let msgStr : LogRow → String := fun r => (cMessage fl r).getD "nan"
  let created_at := minQ (grp.filterMap (cTimestamp fl))
  let completedRows := grp.filter (fun r =>
    strHasSub (asciiLower (msgStr r)) "concluído" ||
    strHasSub (asciiLower (msgStr r)) "concluido" ||
    strHasSub (asciiLower (msgStr r)) "fluxo")
  let completed_at := minQ (completedRows.filterMap (cTimestamp fl))
  let isFb : LogRow → Bool := fun r => effIntentName fl r == some "Default Fallback Intent"
  let fbPair : Bool × Option String :=
    if effHasIntentName fl && grp.any isFb then
      (true, if effHasQueryText fl then ((grp.filter isFb).head?.bind (effQueryText fl)) else none)
    else if grp.any (fun r => strHasSub (msgStr r) "Fallback detectado") then (true, none)
    else (false, none)
  let notifRows := grp.filter (fun r => strHasSub ((cComponent fl r).getD "nan") "SendGrid")
  let notification_sent_at := minQ (notifRows.filterMap (cTimestamp fl))
  let priorityO := if effHasPrioridade fl then firstSome (grp.map (effPrioridade fl)) else none
  let ufO := if effHasUf fl then firstSome (grp.map (effUf fl)) else none
  let channelO := if effHasChannel fl then firstSome (grp.map (effChannel fl)) else none
  let protO := if effHasProtocolo fl then firstSome (grp.map (effProtocolo fl)) else none
  { conversation_id := some k
    channel := pyOrD channelO "web"
    uf := some (match ufO with
      | none => "sp"
      | some u => if u = "" then "sp" else asciiLower u)
    priority := some (pyOrD priorityO "Média")
    created_at := created_at
    completed_at := completed_at
    notification_sent_at := notification_sent_at
    fallback := fbPair.1
    fallback_phrase := fbPair.2
    slots_filled := 6
    slots_total := 6
    escalated := notification_sent_at.isSome
    abandoned := completed_at.isNone
    intent_final := "AbrirChamadoSuporte"
    protocol := some (match protO with
      | none => "MONGO-" ++ k
      | some p => p) }

/-- The per-group loop (src/app.py lines 472-517): keys equal to `''` or the
literal `'None'` are skipped; the first surviving group raises
`AttributeError` when `grp.get('message','')` / `grp.get('component','')`
returned the scalar `''` because the column is absent
(src/app.py lines 478 and 493). -/
def buildSessions (fl : ColFlags) (sk : List (Option String × LogRow)) :
    List String → Except PyErr (List ConversationRecord)
  | [] => .ok []
  | k :: ks =>
    if k == "" || k == "None" then buildSessions fl sk ks
    else if fl.hasMessage = false then
      .error (.attributeError "str has no attribute astype: message column absent")
    else if fl.hasComponent = false then
      .error (.attributeError "str has no attribute astype: component column absent")
    else
      match buildSessions fl sk ks with
      | .error e => .error e
      | .ok rest => .ok (mkSessionRecord fl sk k :: rest)

/-- The Session Aggregator (src/app.py lines 416-521).
`df.sort_values('timestamp')` raises `KeyError` when the frame has no
timestamp column (line 471); otherwise one summary record per surviving
session group. -/
def transform_logs_to_sessions (f : LogFrame) : Except PyErr (List ConversationRecord) :=
  if f.cols.hasTimestamp = false then .error (.keyError "timestamp")
  else buildSessions f.cols (sortedKeyed f.cols f.rows) (sessionKeys f.cols f.rows)

/-! ### Synthetic Generator (`generate_synthetic_data`, src/app.py 319-379)

The source seeds `np.random.default_rng(42)` internally; the seeded stream is
abstracted as `g : ℕ → ℚ` of uniform draws in `[0,1)` with a cursor `k`, each
primitive consuming one draw in program order. -/

/-- `rng.random()`. -/
def drawU (g : ℕ → ℚ) (k : ℕ) : ℚ × ℕ := (g k, k + 1)

/-- `int(rng.integers(a, b))`: a uniform integer in `[a, b)`. -/
def drawNat (g : ℕ → ℚ) (a b k : ℕ) : ℕ × ℕ :=
  (a + (⌊g k * ((b : ℚ) - (a : ℚ))⌋).toNat, k + 1)

/-- `rng.choice(xs)` on a uniform vocabulary. -/
def drawChoice (g : ℕ → ℚ) (xs : List String) (k : ℕ) : String × ℕ :=
  (xs.getD (⌊g k * (xs.length : ℚ)⌋).toNat "", k + 1)

/-- `rng.choice(priorities, p=[0.15, 0.35, 0.5])` by inverse-CDF sampling. -/
def drawPriority (g : ℕ → ℚ) (k : ℕ) : String × ℕ :=
  (if g k < 15 / 100 then "Alta" else if g k < 50 / 100 then "Média" else "Baixa", k + 1)

def channelsVocab : List String := ["web", "whatsapp", "facebook", "telegram"]

def ufsVocab : List String := ["sp", "rj", "mg", "rs", "ba"]

def synthFallbackVocab : List String :=
  ["não entendi", "poderia repetir", "o que você quis dizer", "erro", "não sei"]

/-- Format of the synthetic `protocol` field.  The source renders
`created_at.strftime('%Y%m%d')`; the calendar rendering is abstracted (no
claim depends on it), the row counter is kept. -/
def synthProtocol (created_at : ℚ) (i : ℕ) : String :=
  "SUP-" ++ toString created_at ++ "-" ++ toString i

/-- The `notification_delay` block of src/app.py lines 336-342: only
`"Alta"` rows consume draws (one `rng.random()`, then one `integers`); the
fast branch gives 1-10 minutes, the slow one 11-360. -/
def genDelay (g : ℕ → ℚ) (pr : String) (k : ℕ) : Option ℚ × ℕ :=
  if pr = "Alta" then
    let uP := drawU g k
    if uP.1 < 85 / 100 then
      let mP := drawNat g 1 10 uP.2
      (some (mP.1 : ℚ), mP.2)
    else
      let mP := drawNat g 11 360 uP.2
      (some (mP.1 : ℚ), mP.2)
  else (none, k)

/-- The `slots_filled` block of src/app.py lines 345-349: abandoned rows
draw in `[0, slots_total)`, completed rows in `[3, slots_total]`. -/
def genSlots (g : ℕ → ℚ) (abandoned : Bool) (slots_total k : ℕ) : ℕ × ℕ :=
  if abandoned then drawNat g 0 slots_total k else drawNat g 3 (slots_total + 1) k

/-- The `fallback_phrase` block of src/app.py lines 352-355. -/
def genPhrase (g : ℕ → ℚ) (fallback : Bool) (k : ℕ) : Option String × ℕ :=
  if fallback then
    let cP := drawChoice g synthFallbackVocab k
    (some cP.1, cP.2)
  else (none, k)

/-- The `escalated` flag of src/app.py line 357: the Python `and`
short-circuits, so only `"Alta"` rows consume the draw. -/
def genEsc (g : ℕ → ℚ) (pr : String) (k : ℕ) : Bool × ℕ :=
  if pr = "Alta" then
    let uP := drawU g k
    (decide (uP.1 < 6 / 10), uP.2)
  else (false, k)

/-- One iteration of the generation loop (src/app.py lines 328-377), with
`start = datetime.now() - timedelta(days=90)` passed in and timestamps in
minutes.  Draw order and conditional consumption follow the source. -/
def genRow (g : ℕ → ℚ) (start : ℚ) (i k : ℕ) : ConversationRecord × ℕ :=
  let dayP := drawNat g 0 90 k
  let hourP := drawNat g 0 24 dayP.2
  let minuteP := drawNat g 0 60 hourP.2
  let created_at : ℚ := start + 1440 * dayP.1 + 60 * hourP.1 + minuteP.1
  let durP := drawNat g 1 2880 minuteP.2
  let completedRaw : ℚ := created_at + durP.1
  let prP := drawPriority g durP.2
  let pr := prP.1
  let ndelayP := genDelay g pr prP.2
  let notification_sent_at : Option ℚ := ndelayP.1.map (fun d => created_at + d)
  let slots_total : ℕ := 6
  let uaP := drawU g ndelayP.2
  let abandoned : Bool := decide (uaP.1 < 8 / 100)
  let slotsP := genSlots g abandoned slots_total uaP.2
  let ufbP := drawU g slotsP.2
  let fallback : Bool := decide (ufbP.1 < 12 / 100)
  let phraseP := genPhrase g fallback ufbP.2
  let escP := genEsc g pr phraseP.2
  let chP := drawChoice g channelsVocab escP.2
  let ufP := drawChoice g ufsVocab chP.2
  ({ conversation_id := some ("conv_" ++ toString i)
     channel := chP.1
     uf := some ufP.1
     priority := some pr
     created_at := some created_at
     completed_at := if abandoned then none else some completedRaw
     notification_sent_at := notification_sent_at
     fallback := fallback
     fallback_phrase := phraseP.1
     slots_filled := slotsP.1
     slots_total := slots_total
     escalated := escP.1
     abandoned := abandoned
     intent_final := if abandoned then "fallback" else "create_report"
     protocol := some (synthProtocol created_at i) }, ufP.2)

/-- The generation loop: `n` remaining rows, `i` the current row counter. -/
def genRows (g : ℕ → ℚ) (start : ℚ) : ℕ → ℕ → ℕ → List ConversationRecord
  | 0, _, _ => []
  | n + 1, i, k =>
    let p := genRow g start i k
    p.1 :: genRows g start n (i + 1) p.2

/-- `generate_synthetic_data(num_rows)` (src/app.py lines 319-379). -/
def generate_synthetic_data (g : ℕ → ℚ) (start : ℚ) (num_rows k : ℕ) :
    List ConversationRecord :=
  genRows g start num_rows 0 k

/-! ### Reconciler (`combine_postgres_and_mongo_data`, src/app.py 198-317) -/

/-- `log.get('protocolo') or log.get('context.protocolo')`, then the `if
protocol:` truthiness test of the enrichment loops (src/app.py lines
248-250 and 271-272). -/
def protOf (fl : ColFlags) (r : LogRow) : Option String :=
  let p1 := cProtocolo fl r
  let v := if pyTruthy p1 then p1 else cCtxProtocolo fl r
  if pyTruthy v then v else none

/-- Membership test of a log row in `fallback_logs` (src/app.py lines
240-243): message contains `'Fallback detectado'` (case-sensitive;
`astype(str)` maps null to `'nan'`) or `intentName == 'Default Fallback
Intent'` (scalar `False` when the column is absent). -/
def fallbackLogFilter (fl : ColFlags) (r : LogRow) : Bool :=
  strHasSub ((cMessage fl r).getD "nan") "Fallback detectado" ||
    (cIntentName fl r == some "Default Fallback Intent")

/-- Vocabulary of representative phrases the enrichment assigns
(src/app.py line 258). -/
def phraseVocabA : List String := ["não entendi", "poderia repetir", "erro"]

/-- The `iterrows` loop of src/app.py lines 259-261: rows flagged as
fallback consume one `np.random.choice(sample_phrases)` draw each, in row
order.  (The surrounding `if fallback_protocols:` guard is behaviourally
redundant: with no fallback protocols no flag is set.) -/
def assignPhrases (g : ℕ → ℚ) (k : ℕ) : List Bool → List (Option String)
  | [] => []
  | fb :: rest =>
    if fb then some ((drawChoice g phraseVocabA k).1) :: assignPhrases g (k + 1) rest
    else none :: assignPhrases g k rest

/-- The record State A builds for one structured case row (field mapping of
src/app.py lines 215-233), with the enrichment-dependent `fallback`,
`fallback_phrase` and `notification_sent_at` passed in.  `completed_at` is
never assigned on this path (the Postgres query selects no such column and
lines 232-233 deliberately leave it null); `abandoned` is the constant
`False` of line 227. -/
def mkStateARecord (r : DenunciaRow) (fb : Bool) (ph : Option String)
    (notif : Option ℚ) : ConversationRecord :=
  { conversation_id := r.protocolo
    channel := "web"
    uf := r.uf
    priority := r.prioridade
    created_at := r.created_at
    completed_at := none
    notification_sent_at := notif
    fallback := fb
    fallback_phrase := ph
    slots_filled := 6
    slots_total := 6
    escalated := r.prioridade == some "Alta"
    abandoned := false
    intent_final := "AbrirChamadoSuporte"
    protocol := r.protocolo }

/-- State A enrichment from real Mongo logs (src/app.py lines 236-284).
`mongo_logs.get('message','')` / `.get('component','')` return the scalar
`''` when the column is absent and the subsequent `.astype(str)` raises
`AttributeError` (lines 241 and 265). -/
def stateAEnrichReal (fl : ColFlags) (mrows : List LogRow) (pg : List DenunciaRow)
    (g : ℕ → ℚ) (k : ℕ) : Except PyErr (List ConversationRecord) :=
  if fl.hasMessage = false then
    .error (.attributeError "str has no attribute astype: message column absent")
  else
    let fbLogs := mrows.filter (fallbackLogFilter fl)
    let fps : List String := (fbLogs.filterMap (protOf fl)).dedup
    let flags : List Bool := pg.map (fun r =>
      match r.protocolo with
      | some p => fps.contains p
      | none => false)
    let phrases := assignPhrases g k flags
    if fl.hasComponent = false then
      .error (.attributeError "str has no attribute astype: component column absent")
    else
      let notifLogs := mrows.filter (fun r =>
        strHasSub ((cComponent fl r).getD "nan") "SendGrid")
      let notifTime : String → Option ℚ := fun p =>
        minQ ((notifLogs.filter (fun r => protOf fl r == some p)).filterMap (cTimestamp fl))
      .ok ((pg.zip (flags.zip phrases)).map (fun q =>
        mkStateARecord q.1 q.2.1 q.2.2
          (match q.1.protocolo with
           | some p => notifTime p
           | none => none)))

/-- State A synthetic-fallback enrichment, taken when the log store returned
no rows (src/app.py lines 286-300): per-row fallback flags at 10%
(`np.random.choice([True,False], n, p=[0.1,0.9])` consumes one draw per
row), then one `np.random.uniform(5,15)` draw per `prioridade == 'Alta'`
row, in row order, added to that row's `created_at` (null stays null, as
`NaT + timedelta` is `NaT`). -/
def stateASynth (pg : List DenunciaRow) (g : ℕ → ℚ) (k : ℕ) : List ConversationRecord :=
  let n := pg.length
  pg.enum.map (fun p =>
    let i := p.1
    let r := p.2
    let fb : Bool := decide (g (k + i) < 1 / 10)
    let altaRank := ((pg.take i).filter (fun q => q.prioridade == some "Alta")).length
    let notif : Option ℚ :=
      if r.prioridade == some "Alta" then
        r.created_at.map (fun t => t + (5 + 10 * g (k + n + altaRank)))
      else none
    mkStateARecord r fb none notif)

/-- State A (structured-first) of the Reconciler (src/app.py lines 213-306). -/
def stateA (pg : List DenunciaRow) (mongo : LogFrame) (g : ℕ → ℚ) (k : ℕ) :
    Except PyErr (List ConversationRecord) :=
  if mongo.rows.isEmpty then .ok (stateASynth pg g k)
  else stateAEnrichReal mongo.cols mongo.rows pg g k

/-- The Reconciler (src/app.py lines 198-317), as a function of the two
reader results (an unavailable or failed source reads as an empty frame,
the readers catch their own exceptions), the random stream and the clock.
There is no try/except in the function itself: an exception inside State A
enrichment or inside the Session Aggregator propagates to the caller. -/
def combine_postgres_and_mongo_data (pg : List DenunciaRow) (mongo : LogFrame)
    (g : ℕ → ℚ) (k : ℕ) (start : ℚ) : Except PyErr (List ConversationRecord) :=
  if pg.isEmpty = false then stateA pg mongo g k
  else if mongo.rows.isEmpty = false then
    match transform_logs_to_sessions mongo with
    | .error e => .error e
    | .ok sessions =>
      if sessions.length > 0 then .ok sessions
      else .ok (generate_synthetic_data g start 500 k)
  else .ok (generate_synthetic_data g start 500 k)

/-! ### Metrics Engine (`compute_metrics`, src/app.py 566-615) -/

/-- Sorted per-key counts: models `df.groupby(col).size()` (null keys are
dropped by pandas before this is called on an `Option` column). -/
def countsSorted (l : List String) : List (String × ℕ) :=
  (List.insertionSort strLeP l.dedup).map (fun c => (c, (l.filter (fun x => x = c)).length))

structure Metrics where
  total_conv : ℕ
  fallback_rate : ℚ
  slot_fill_rate : ℚ
  avg_completion_min : Option ℚ
  escalation_rate : ℚ
  abandonment_rate : ℚ
  reports_by_channel : List (String × ℕ)
  reports_by_uf : List (String × ℕ)
  pct_high_priority : ℚ
  avg_notif_delay_min : Option ℚ
deriving DecidableEq, Repr

/-- `compute_metrics` (src/app.py lines 566-615).  `nunique` counts distinct
non-null ids; the means are over the non-null differences (pandas `mean`
skips `NaN`) and are `none` (NaN) when nothing qualifies. -/
def compute_metrics (df : List ConversationRecord) : Metrics :=
  let total_conv := ((df.filterMap (fun r => r.conversation_id)).dedup).length
  let fallbacks := (df.filter (fun r => r.fallback == true)).length
  let fallback_rate : ℚ := if total_conv = 0 then 0 else (fallbacks : ℚ) / (total_conv : ℚ)
  let completed := df.filter (fun r => !r.abandoned)
  let slot_fill_rate : ℚ :=
    if completed.length = 0 then 0
    else
      let total_slots : ℕ := (completed.map (fun r => r.slots_total)).sum
      let filled_slots : ℕ := (completed.map (fun r => r.slots_filled)).sum
      if total_slots > 0 then (filled_slots : ℚ) / (total_slots : ℚ) else 0
  let durations := completed.filterMap (fun r =>
    match r.completed_at, r.created_at with
    | some c, some a => some (c - a)
    | _, _ => none)
  let avg_completion_min : Option ℚ :=
    if durations.isEmpty then none else some (durations.sum / (durations.length : ℚ))
  let escalation_rate : ℚ :=
    if total_conv = 0 then 0
    else ((df.filter (fun r => r.escalated == true)).length : ℚ) / (total_conv : ℚ)
  let abandonment_rate : ℚ :=
    if total_conv = 0 then 0
    else ((df.filter (fun r => r.abandoned == true)).length : ℚ) / (total_conv : ℚ)
  let reports_by_channel := countsSorted (df.map (fun r => r.channel))
  let reports_by_uf := countsSorted (df.filterMap (fun r => r.uf))
  let pct_high_priority : ℚ :=
    if total_conv = 0 then 0
    else ((df.filter (fun r => r.priority == some "Alta")).length : ℚ) / (total_conv : ℚ)
  let notifDelays := df.filterMap (fun r =>
    match r.notification_sent_at, r.created_at with
    | some s, some a => some (s - a)
    | _, _ => none)
  let avg_notif_delay_min : Option ℚ :=
    if notifDelays.isEmpty then none else some (notifDelays.sum / (notifDelays.length : ℚ))
  { total_conv := total_conv
    fallback_rate := fallback_rate
    slot_fill_rate := slot_fill_rate
    avg_completion_min := avg_completion_min
    escalation_rate := escalation_rate
    abandonment_rate := abandonment_rate
    reports_by_channel := reports_by_channel
    reports_by_uf := reports_by_uf
    pct_high_priority := pct_high_priority
    avg_notif_delay_min := avg_notif_delay_min }

/-! ### Auxiliary definitions for the verification -/

/-- Equality of pipeline results is decidable (used to evaluate concrete
runs). -/
instance {ε α : Type} [DecidableEq ε] [DecidableEq α] : DecidableEq (Except ε α) := fun x y =>
  match x, y with
  | .ok a, .ok b => decidable_of_iff (a = b) (by simp)
  | .ok _, .error _ => .isFalse (by simp)
  | .error _, .ok _ => .isFalse (by simp)
  | .error e, .error f => decidable_of_iff (e = f) (by simp)

/-- A well-formed uniform stream: every draw lies in `[0, 1)`. -/
def ValidSeq (g : ℕ → ℚ) : Prop := ∀ n, 0 ≤ g n ∧ g n < 1

/-- A fixed concrete stream used to run the pipeline on concrete inputs. -/
def g0 : ℕ → ℚ := fun _ => 1 / 2

/-- The default column layout: the standard RawLogEntry columns present,
no `context.*` columns. -/
def defCols : ColFlags := {}

/-- An empty log frame (log store unavailable or no documents). -/
def emptyLogFrame : LogFrame := { cols := defCols, rows := [] }

/-- Scenario rows of C5: session `"s1"`, entries at minutes 0, 5 and 10. -/
def c5r1 : LogRow := { timestamp := some 0, message := some "iniciado", session_id := some "s1" }

def c5r2 : LogRow :=
  { timestamp := some 5, intentName := some "Default Fallback Intent",
    queryText := some "não entendi", session_id := some "s1" }

def c5r3 : LogRow := { timestamp := some 10, message := some "Fluxo concluído", session_id := some "s1" }

def c5frame : LogFrame := { cols := defCols, rows := [c5r1, c5r2, c5r3] }

/-- A reordering of the C5 scenario rows (used to exercise order-invariance). -/
def c5frameSwapped : LogFrame := { cols := defCols, rows := [c5r2, c5r1, c5r3] }

/-- C3 input: `dialogflowSessionId` wins globally; the second row has no
value in it (and no other candidate value). -/
def c3rowA : LogRow := { timestamp := some 0, dialogflowSessionId := some "s1" }

def c3rowB : LogRow := { timestamp := some 1 }

def c3frame : LogFrame := { cols := defCols, rows := [c3rowA, c3rowB] }

/-- C9 input: no session-id candidate has any value, so the positional
index becomes the key; the two orders of the same two rows. -/
def c9rowX : LogRow := { timestamp := some 0, message := some "Fluxo concluído" }

def c9rowY : LogRow := { timestamp := some 5 }

def c9frameA : LogFrame := { cols := defCols, rows := [c9rowX, c9rowY] }

def c9frameB : LogFrame := { cols := defCols, rows := [c9rowY, c9rowX] }

/-- C2 input: a non-empty log frame whose `message` column is absent (a
Mongo batch none of whose documents has a `message` field). -/
def c2frame : LogFrame :=
  { cols := { hasMessage := false }, rows := [{ timestamp := some 0, session_id := some "s" }] }

/-- A single structured case row (priority `Média`). -/
def pgRowM : DenunciaRow :=
  { protocolo := some "SUP-1", prioridade := some "Média", uf := some "sp",
    created_at := some 100, status := some "aberto" }

/-- Three structured case rows for the C6 scenario, one of them `Alta`. -/
def c6pg : List DenunciaRow :=
  [{ protocolo := some "SUP-1", prioridade := some "Alta", uf := some "sp", created_at := some 100 },
   { protocolo := some "SUP-2", prioridade := some "Média", uf := some "rj", created_at := some 200 },
   { protocolo := some "SUP-3", prioridade := some "Baixa", uf := some "mg", created_at := some 300 }]

/-- A record whose `conversation_id` repeats across rows (C10 input). -/
def c10row : ConversationRecord :=
  { conversation_id := some "conv_dup", channel := "web", uf := some "sp",
    priority := some "Média", created_at := some 0, completed_at := some 30,
    notification_sent_at := none, fallback := true, fallback_phrase := some "erro",
    slots_filled := 6, slots_total := 6, escalated := false, abandoned := false,
    intent_final := "AbrirChamadoSuporte", protocol := some "conv_dup" }

/-- Per-row properties of the Synthetic Generator claimed by C8. -/
def C8Prop (r : ConversationRecord) : Prop :=
  (r.abandoned = true → r.slots_filled < r.slots_total ∧ r.completed_at = none) ∧
  (r.abandoned = false → 3 ≤ r.slots_filled ∧ r.slots_filled ≤ r.slots_total) ∧
  (r.escalated = true → r.priority = some "Alta") ∧
  (r.notification_sent_at.isSome = true → r.priority = some "Alta")

/-- Strict timestamp order on keyed rows, used to show that the sorted
frame is unique when timestamps are pairwise distinct. -/
def tsLt (a b : Option String × LogRow) : Prop :=
  tsKey a.2.timestamp < tsKey b.2.timestamp

instance : IsAntisymm (Option String × LogRow) tsLt :=
  ⟨fun _ _ h1 h2 => absurd h1 (lt_asymm h2)⟩

/-- Decimal value of a digit string (Horner form), used to invert
`pyStrAux`. -/
def digitsVal (l : List Char) : ℕ := l.foldl (fun acc c => 10 * acc + (c.toNat - 48)) 0

/-! ### Theorems -/

/-- C4: `compute_metrics` applied to an empty record set returns
`total_conversations = 0` and every rate field (fallback, slot-fill,
escalation, abandonment, pct-high-priority) equal to `0` — not NaN and not
an error. -/
theorem C4_empty_metrics :
    (compute_metrics []).total_conv = 0 ∧
    (compute_metrics []).fallback_rate = 0 ∧
    (compute_metrics []).slot_fill_rate = 0 ∧
    (compute_metrics []).escalation_rate = 0 ∧
    (compute_metrics []).abandonment_rate = 0 ∧
    (compute_metrics []).pct_high_priority = 0 :=
  ⟨rfl, rfl, rfl, rfl, rfl, rfl⟩

/-- C5: on the three-entry session `"s1"` (start message at `T0 = 0`,
`Default Fallback Intent` with query `"não entendi"` at `T0+5`, completion
message `"Fluxo concluído"` at `T0+10`) the Session Aggregator returns one
record with `fallback = true`, `fallback_phrase = "não entendi"`,
`completed_at = T0+10` and `abandoned = false`. -/
theorem C5_scenario :
    (transform_logs_to_sessions c5frame).map (fun l => l.map (fun r =>
        (r.conversation_id, r.fallback, r.fallback_phrase, r.completed_at, r.abandoned)))
      = .ok [(some "s1", true, some "não entendi", some 10, false)] := by
  rfl

/-- C1 is falsified by the structured-first state: on a one-row structured
source with the log store empty, the Reconciler returns a record with
`completed_at` null and `abandoned = false`, breaking the claimed
equivalence. -/
theorem C1_counterexample :
    ∃ r, combine_postgres_and_mongo_data [pgRowM] emptyLogFrame g0 0 0 = .ok [r] ∧
      r.completed_at = none ∧ r.abandoned = false := by
  exact ⟨_, rfl, rfl, rfl⟩

/-- C2 is falsified: with the structured source empty and a non-empty log
frame lacking a `message` column, the `AttributeError` raised inside the
Session Aggregator (`grp.get('message','').astype(str)`) propagates out of
the Reconciler instead of being caught. -/
theorem C2_counterexample :
    ∃ e, combine_postgres_and_mongo_data [] c2frame g0 0 0 = .error e := by
  exact ⟨_, rfl⟩

/-- C3 is falsified: on a two-row batch where `dialogflowSessionId` wins
globally and the second row lacks it, the aggregator returns a single
record (for `"s1"`) — the winning-field-less row is dropped rather than
keyed by its row position. -/
theorem C3_counterexample :
    c3frame.rows.length = 2 ∧
    (transform_logs_to_sessions c3frame).map (fun l => l.map (fun r => r.conversation_id))
      = .ok [some "s1"] := by
  exact ⟨rfl, rfl⟩

/-- C9 is falsified: the two orders of the same two candidate-less rows are
permutations of each other, yet the aggregator's outputs differ (the
positional fallback identifier binds different rows to different keys). -/
theorem C9_counterexample :
    c9frameA.cols = c9frameB.cols ∧ c9frameA.rows.Perm c9frameB.rows ∧
    transform_logs_to_sessions c9frameA ≠ transform_logs_to_sessions c9frameB := by
  refine ⟨rfl, by decide, by decide⟩

/-- Lists of somes: a map through a function that is `some` on every
element equals the `some`-image of its `filterMap`. -/
theorem map_eq_filterMap_of_isSome {α β : Type} (f : α → Option β) :
    ∀ l : List α, (∀ a ∈ l, (f a).isSome) → l.map f = (l.filterMap f).map some := by
  intro l h
  induction l with
  | nil => rfl
  | cons a t ih =>
    obtain ⟨b, hb⟩ := Option.isSome_iff_exists.mp (h a (by simp))
    simp [List.filterMap_cons, hb, ih (fun x hx => h x (by simp [hx]))]

/-- A guarded count-over-count ratio lies in `[0, 1]`. -/
theorem rate01 (c t : ℕ) (hct : c ≤ t) :
    0 ≤ (if t = 0 then (0 : ℚ) else (c : ℚ) / (t : ℚ)) ∧
      (if t = 0 then (0 : ℚ) else (c : ℚ) / (t : ℚ)) ≤ 1 := by
  by_cases h : t = 0
  · simp [h]
  · have ht : (0 : ℚ) < t := by exact_mod_cast Nat.pos_of_ne_zero h
    refine ⟨?_, ?_⟩
    · rw [if_neg h]
      positivity
    · rw [if_neg h, div_le_one ht]
      exact_mod_cast hct

/-- C7: `slot_fill_rate` equals the sum of `slots_filled` over non-abandoned
rows divided by the sum of `slots_total` over non-abandoned rows, and is `0`
whenever that denominator is zero (in particular when no row is
non-abandoned). -/
theorem C7_slot_fill_rate (df : List ConversationRecord) :
    (compute_metrics df).slot_fill_rate =
      (if ((df.filter (fun r => !r.abandoned)).map (fun r => r.slots_total)).sum = 0 then 0
       else (((((df.filter (fun r => !r.abandoned)).map (fun r => r.slots_filled)).sum : ℕ)) : ℚ) /
            (((((df.filter (fun r => !r.abandoned)).map (fun r => r.slots_total)).sum : ℕ)) : ℚ)) := by
  simp only [compute_metrics]
  by_cases h0 : (df.filter (fun r => !r.abandoned)).length = 0
  · have hnil : df.filter (fun r => !r.abandoned) = [] := List.length_eq_zero.mp h0
    simp [h0, hnil]
  · simp only [if_neg h0]
    rcases Nat.eq_zero_or_pos ((df.filter (fun r => !r.abandoned)).map (fun r => r.slots_total)).sum
      with hts | hts
    · rw [if_pos hts,
        if_neg (by omega :
          ¬ ((df.filter (fun r => !r.abandoned)).map (fun r => r.slots_total)).sum > 0)]
    · rw [if_neg (by omega :
          ¬ ((df.filter (fun r => !r.abandoned)).map (fun r => r.slots_total)).sum = 0),
        if_pos hts]

/-- C10: the rate metrics divide raw row counts by the number of distinct
`conversation_id`s.  On two rows sharing one id with `fallback = true` on
both, `fallback_rate` is `2 > 1`; when `conversation_id` is present and
unique per row, the four rates are guaranteed to lie in `[0, 1]`. -/
theorem C10_rates_and_uniqueness :
    (compute_metrics [c10row, c10row]).fallback_rate = 2 ∧
    1 < (compute_metrics [c10row, c10row]).fallback_rate ∧
    ∀ df : List ConversationRecord,
      (df.map (fun r => r.conversation_id)).Nodup →
      (∀ r ∈ df, (r.conversation_id).isSome) →
      (0 ≤ (compute_metrics df).fallback_rate ∧ (compute_metrics df).fallback_rate ≤ 1) ∧
      (0 ≤ (compute_metrics df).escalation_rate ∧ (compute_metrics df).escalation_rate ≤ 1) ∧
      (0 ≤ (compute_metrics df).abandonment_rate ∧ (compute_metrics df).abandonment_rate ≤ 1) ∧
      (0 ≤ (compute_metrics df).pct_high_priority ∧ (compute_metrics df).pct_high_priority ≤ 1) := by
  have h2 : (compute_metrics [c10row, c10row]).fallback_rate = ((2 : ℕ) : ℚ) / ((1 : ℕ) : ℚ) := rfl
  refine ⟨by rw [h2]; norm_num, by rw [h2]; norm_num, ?_⟩
  intro df h1 h2
  have hmap := map_eq_filterMap_of_isSome (fun r => r.conversation_id) df h2
  have hnd : (df.filterMap (fun r => r.conversation_id)).Nodup := by
    rw [hmap] at h1
    exact h1.of_map some
  have hlen : (df.filterMap (fun r => r.conversation_id)).length = df.length := by
    have := congrArg List.length hmap
    simpa using this.symm
  have hTC : ((df.filterMap (fun r => r.conversation_id)).dedup).length = df.length := by
    rw [List.dedup_eq_self.mpr hnd, hlen]
  refine ⟨?_, ?_, ?_, ?_⟩ <;>
    · simp only [compute_metrics, hTC]
      exact rate01 _ _ (List.length_filter_le _ _)

/-- Witness for the universal part of `C10_rates_and_uniqueness` at a
concrete one-row record set. -/
theorem C10_witness :
    (0 ≤ (compute_metrics [c10row]).fallback_rate ∧ (compute_metrics [c10row]).fallback_rate ≤ 1) ∧
    (0 ≤ (compute_metrics [c10row]).escalation_rate ∧ (compute_metrics [c10row]).escalation_rate ≤ 1) ∧
    (0 ≤ (compute_metrics [c10row]).abandonment_rate ∧
      (compute_metrics [c10row]).abandonment_rate ≤ 1) ∧
    (0 ≤ (compute_metrics [c10row]).pct_high_priority ∧
      (compute_metrics [c10row]).pct_high_priority ≤ 1) :=
  C10_rates_and_uniqueness.2.2 [c10row] (by decide) (by decide)

/-- With the `message` and `component` columns present, the per-group loop
returns one record per valid key, in key order. -/
theorem buildSessions_ok (fl : ColFlags) (sk : List (Option String × LogRow))
    (hm : fl.hasMessage = true) (hc : fl.hasComponent = true) :
    ∀ keys : List String, buildSessions fl sk keys =
      .ok ((keys.filter (fun k => !(k == "" || k == "None"))).map (mkSessionRecord fl sk)) := by
  intro keys
  induction keys with
  | nil => rfl
  | cons k ks ih =>
    rw [buildSessions]
    by_cases hk : (k == "" || k == "None") = true
    · rw [if_pos hk, ih, List.filter_cons]
      have hp : (!(k == "" || k == "None")) = false := by rw [hk]; rfl
      rw [hp, if_neg Bool.false_ne_true]
    · rw [if_neg hk, hm, if_neg (by simp : ¬(true = false)),
        hc, if_neg (by simp : ¬(true = false)), ih, List.filter_cons]
      have hp : (!(k == "" || k == "None")) = true := by
        rw [Bool.not_eq_true] at hk
        rw [hk]
        rfl
      rw [if_pos hp]
      rfl

/-- Every record an `ok` run of the per-group loop returns is the summary
record of some key. -/
theorem buildSessions_mem (fl : ColFlags) (sk : List (Option String × LogRow)) :
    ∀ (keys : List String) (out : List ConversationRecord),
      buildSessions fl sk keys = .ok out →
      ∀ r ∈ out, ∃ k, r = mkSessionRecord fl sk k := by
  intro keys
  induction keys with
  | nil =>
    intro out h r hr
    cases h
    simp at hr
  | cons k ks ih =>
    intro out h r hr
    rw [buildSessions] at h
    by_cases hk : (k == "" || k == "None") = true
    · rw [if_pos hk] at h
      exact ih out h r hr
    · rw [if_neg hk] at h
      by_cases hm : fl.hasMessage = false
      · rw [if_pos hm] at h
        cases h
      · rw [if_neg hm] at h
        by_cases hc : fl.hasComponent = false
        · rw [if_pos hc] at h
          cases h
        · rw [if_neg hc] at h
          cases hrec : buildSessions fl sk ks with
          | error e => rw [hrec] at h; cases h
          | ok rest =>
            rw [hrec] at h
            cases h
            rcases List.mem_cons.mp hr with hhead | htail
            · exact ⟨k, hhead⟩
            · exact ih rest hrec r htail

theorem mkSessionRecord_abandoned (fl : ColFlags) (sk : List (Option String × LogRow))
    (k : String) :
    (mkSessionRecord fl sk k).abandoned = (mkSessionRecord fl sk k).completed_at.isNone := rfl

theorem mkStateARecord_fields (r : DenunciaRow) (fb : Bool) (ph : Option String)
    (notif : Option ℚ) :
    (mkStateARecord r fb ph notif).abandoned = false ∧
    (mkStateARecord r fb ph notif).completed_at = none := ⟨rfl, rfl⟩

/-- Every record of an `ok` State A run has `abandoned = false` and a null
`completed_at`. -/
theorem stateA_ok_mem (pg : List DenunciaRow) (mongo : LogFrame) (g : ℕ → ℚ) (k : ℕ)
    (out : List ConversationRecord) (h : stateA pg mongo g k = .ok out) :
    ∀ r ∈ out, r.abandoned = false ∧ r.completed_at = none := by
  unfold stateA at h
  by_cases hmr : mongo.rows.isEmpty
  · rw [if_pos hmr] at h
    cases h
    intro r hr
    obtain ⟨p, _, rfl⟩ := List.mem_map.mp hr
    exact ⟨rfl, rfl⟩
  · rw [if_neg hmr] at h
    unfold stateAEnrichReal at h
    by_cases hm : mongo.cols.hasMessage = false
    · rw [if_pos hm] at h
      cases h
    · rw [if_neg hm] at h
      by_cases hc : mongo.cols.hasComponent = false
      · simp only [if_pos hc] at h
        cases h
      · simp only [if_neg hc] at h
        cases h
        intro r hr
        obtain ⟨p, _, rfl⟩ := List.mem_map.mp hr
        exact ⟨rfl, rfl⟩

/-- A boolean tracks the `isNone` of the option it guards. -/
theorem bool_guard_isNone (b : Bool) (c : ℚ) :
    b = (if b = true then (none : Option ℚ) else some c).isNone := by
  cases b <;> rfl

/-- Every synthetic row's `abandoned` flag reflects a null `completed_at`. -/
theorem genRow_abandoned (g : ℕ → ℚ) (start : ℚ) (i k : ℕ) :
    (genRow g start i k).1.abandoned = (genRow g start i k).1.completed_at.isNone := by
  unfold genRow
  dsimp only
  exact bool_guard_isNone _ _

theorem genRows_abandoned (g : ℕ → ℚ) (start : ℚ) :
    ∀ (n i k : ℕ), ∀ r ∈ genRows g start n i k, r.abandoned = r.completed_at.isNone := by
  intro n
  induction n with
  | zero => intro i k r hr; simp [genRows] at hr
  | succ m ih =>
    intro i k r hr
    rw [genRows] at hr
    rcases List.mem_cons.mp hr with hhead | htail
    · rw [hhead]
      exact genRow_abandoned g start i k
    · exact ih (i + 1) _ r htail

/-- C1 (amended): every record produced by the logs-only and synthetic
Reconciler states satisfies `abandoned ⇔ completed_at is null`; in the
structured-first state every record instead has `abandoned = false` with
`completed_at` null (the Postgres path never populates `completed_at`), so
the claimed equivalence fails there whenever the structured source is
non-empty. -/
theorem C1_abandoned_iff_amended :
    ∀ (pg : List DenunciaRow) (mongo : LogFrame) (g : ℕ → ℚ) (k : ℕ) (start : ℚ)
      (out : List ConversationRecord),
      combine_postgres_and_mongo_data pg mongo g k start = .ok out →
      ((pg = [] → ∀ r ∈ out, r.abandoned = r.completed_at.isNone) ∧
       (pg ≠ [] → ∀ r ∈ out, r.abandoned = false ∧ r.completed_at = none)) := by
  intro pg mongo g k start out h
  unfold combine_postgres_and_mongo_data at h
  by_cases hpg : pg.isEmpty
  · have hpgnil : pg = [] := List.isEmpty_iff.mp hpg
    rw [if_neg (by simp [hpg])] at h
    refine ⟨fun _ => ?_, fun hne => absurd hpgnil hne⟩
    by_cases hmr : mongo.rows.isEmpty
    · rw [if_neg (by simp [hmr])] at h
      cases h
      intro r hr
      exact genRows_abandoned g start 500 0 k r hr
    · rw [if_pos (by revert hmr; cases mongo.rows.isEmpty <;> simp)] at h
      cases htr : transform_logs_to_sessions mongo with
      | error e => rw [htr] at h; cases h
      | ok sessions =>
        rw [htr] at h
        dsimp only at h
        by_cases hlen : sessions.length > 0
        · rw [if_pos hlen] at h
          cases h
          intro r hr
          unfold transform_logs_to_sessions at htr
          by_cases hts : mongo.cols.hasTimestamp = false
          · rw [if_pos hts] at htr
            cases htr
          · rw [if_neg hts] at htr
            obtain ⟨kk, rfl⟩ := buildSessions_mem _ _ _ _ htr r hr
            exact mkSessionRecord_abandoned _ _ _
        · rw [if_neg hlen] at h
          cases h
          intro r hr
          exact genRows_abandoned g start 500 0 k r hr
  · have hpf : pg.isEmpty = false := by revert hpg; cases pg.isEmpty <;> simp
    have hpgne : pg ≠ [] := by
      intro hn
      rw [hn] at hpf
      cases hpf
    rw [if_pos hpf] at h
    exact ⟨fun hnil => absurd hnil hpgne, fun _ => stateA_ok_mem _ _ _ _ _ h⟩

/-- Witness for `C1_abandoned_iff_amended` on the one-row structured
source. -/
theorem C1_witness :
    ((stateASynth [pgRowM] g0 0).all
      (fun r => r.abandoned == false && r.completed_at == none)) = true := by
  have h := (C1_abandoned_iff_amended [pgRowM] emptyLogFrame g0 0 0
    (stateASynth [pgRowM] g0 0) rfl).2 (by simp)
  rw [List.all_eq_true]
  intro r hr
  obtain ⟨h1, h2⟩ := h r hr
  simp [h1, h2]

/-- C2 (amended): the readers catch their own exceptions, but the
Reconciler itself has no exception handling: an error inside the Session
Aggregator or the enrichment propagates to the caller (see
`C2_counterexample`).  Provided the log frame has `timestamp`, `message`
and `component` columns, no modelled exception arises and the Reconciler
returns a well-formed record set for every input. -/
theorem C2_no_raise_amended (pg : List DenunciaRow) (mongo : LogFrame) (g : ℕ → ℚ) (k : ℕ)
    (start : ℚ) (ht : mongo.cols.hasTimestamp = true) (hm : mongo.cols.hasMessage = true)
    (hc : mongo.cols.hasComponent = true) :
    ∃ out, combine_postgres_and_mongo_data pg mongo g k start = .ok out := by
  unfold combine_postgres_and_mongo_data
  by_cases hpg : pg.isEmpty
  · rw [if_neg (by simp [hpg])]
    by_cases hmr : mongo.rows.isEmpty
    · rw [if_neg (by simp [hmr])]
      exact ⟨_, rfl⟩
    · rw [if_pos (by revert hmr; cases mongo.rows.isEmpty <;> simp)]
      unfold transform_logs_to_sessions
      rw [if_neg (by simp [ht]), buildSessions_ok _ _ hm hc]
      dsimp only
      split
      · exact ⟨_, rfl⟩
      · exact ⟨_, rfl⟩
  · rw [if_pos (by revert hpg; cases pg.isEmpty <;> simp)]
    unfold stateA
    by_cases hmr : mongo.rows.isEmpty
    · rw [if_pos hmr]
      exact ⟨_, rfl⟩
    · rw [if_neg hmr]
      unfold stateAEnrichReal
      simp only [hm, hc]
      simp

/-- Witness for `C2_no_raise_amended` at the C5 scenario frame. -/
theorem C2_witness :
    ∃ out, combine_postgres_and_mongo_data [] c5frame g0 0 0 = .ok out :=
  C2_no_raise_amended [] c5frame g0 0 0 rfl rfl rfl

/-- C6: when the structured source returns exactly 3 rows and the log store
returns 0 rows, State A runs with synthetic-fallback enrichment and returns
exactly 3 records, all `channel = "web"` and `slots_total = 6`; row `i`'s
fallback flag is the `i`-th 10%-Bernoulli draw, and exactly the
`priority = "Alta"` rows get `notification_sent_at = created_at` plus a
uniform 5-15 minute delay (a null `created_at` stays null, as
`NaT + timedelta` is `NaT`). -/
theorem C6_state_a_synthetic_enrichment (pg : List DenunciaRow) (mongo : LogFrame)
    (g : ℕ → ℚ) (k : ℕ) (start : ℚ) (hg : ValidSeq g) (hpg : pg.length = 3)
    (hmr : mongo.rows = []) :
    ∃ out, combine_postgres_and_mongo_data pg mongo g k start = .ok out ∧
      out.length = 3 ∧
      (∀ r ∈ out, r.channel = "web" ∧ r.slots_total = 6) ∧
      (∀ i, (hi : i < out.length) → (out.get ⟨i, hi⟩).fallback = decide (g (k + i) < 1 / 10)) ∧
      (∀ r ∈ out,
        (r.priority = some "Alta" →
          ∃ d : ℚ, 5 ≤ d ∧ d < 15 ∧
            r.notification_sent_at = r.created_at.map (fun t => t + d)) ∧
        (r.priority ≠ some "Alta" → r.notification_sent_at = none)) := by
  have hne : pg.isEmpty = false := by
    cases pg with
    | nil => simp at hpg
    | cons a t => rfl
  refine ⟨stateASynth pg g k, ?_, ?_, ?_, ?_, ?_⟩
  · unfold combine_postgres_and_mongo_data stateA
    rw [if_pos hne, if_pos (by rw [hmr]; rfl)]
  · simp [stateASynth, hpg]
  · intro r hr
    obtain ⟨p, _, rfl⟩ := List.mem_map.mp hr
    exact ⟨rfl, rfl⟩
  · intro i hi
    have hi2 : i < pg.length := by simpa [stateASynth] using hi
    simp only [stateASynth, List.get_eq_getElem, List.getElem_map, List.getElem_enum]
    rfl
  · intro r hr
    obtain ⟨p, _, rfl⟩ := List.mem_map.mp hr
    constructor
    · intro hAlta
      have hb : (p.2.prioridade == some "Alta") = true := by
        have : p.2.prioridade = some "Alta" := hAlta
        simp [this]
      refine ⟨5 + 10 * g (k + pg.length +
        ((pg.take p.1).filter (fun q => q.prioridade == some "Alta")).length), ?_, ?_, ?_⟩
      · have := (hg (k + pg.length +
          ((pg.take p.1).filter (fun q => q.prioridade == some "Alta")).length)).1
        linarith
      · have := (hg (k + pg.length +
          ((pg.take p.1).filter (fun q => q.prioridade == some "Alta")).length)).2
        linarith
      · show (if p.2.prioridade == some "Alta" then _ else none) = _
        rw [if_pos hb]
        rfl
    · intro hne2
      have hb : (p.2.prioridade == some "Alta") = false := by
        cases hq : p.2.prioridade == some "Alta"
        · rfl
        · exact absurd (by simpa using hq) hne2
      show (if p.2.prioridade == some "Alta" then _ else none) = none
      rw [hb]
      rfl

/-- Witness for `C6_state_a_synthetic_enrichment` at a concrete three-row
structured source. -/
theorem C6_witness :
    ValidSeq g0 ∧
    ∃ out, combine_postgres_and_mongo_data c6pg emptyLogFrame g0 0 0 = .ok out ∧
      out.length = 3 := by
  have hg : ValidSeq g0 := by
    intro n
    constructor <;> norm_num [g0]
  obtain ⟨out, h1, h2, _⟩ := C6_state_a_synthetic_enrichment c6pg emptyLogFrame g0 0 0 hg rfl rfl
  exact ⟨hg, out, h1, h2⟩

theorem drawNat_le (g : ℕ → ℚ) (a b kk : ℕ) : a ≤ (drawNat g a b kk).1 :=
  Nat.le_add_right a _

theorem drawNat_lt (g : ℕ → ℚ) (a b kk : ℕ) (hab : a < b)
    (h0 : 0 ≤ g kk) (h1 : g kk < 1) : (drawNat g a b kk).1 < b := by
  unfold drawNat
  dsimp only
  have hba : (0 : ℚ) < (b : ℚ) - (a : ℚ) := by
    have : (a : ℚ) < (b : ℚ) := by exact_mod_cast hab
    linarith
  have hnn : 0 ≤ ⌊g kk * ((b : ℚ) - (a : ℚ))⌋ := Int.floor_nonneg.mpr (by positivity)
  have hlt : ⌊g kk * ((b : ℚ) - (a : ℚ))⌋ < (b : ℤ) - (a : ℤ) := by
    apply Int.floor_lt.mpr
    push_cast
    nlinarith
  omega

theorem genSlots_true_lt (g : ℕ → ℚ) (tot kk : ℕ) (htot : 0 < tot)
    (h0 : 0 ≤ g kk) (h1 : g kk < 1) : (genSlots g true tot kk).1 < tot := by
  unfold genSlots
  rw [if_pos rfl]
  exact drawNat_lt g 0 tot kk htot h0 h1

theorem genSlots_false_ge (g : ℕ → ℚ) (tot kk : ℕ) : 3 ≤ (genSlots g false tot kk).1 := by
  unfold genSlots
  rw [if_neg Bool.false_ne_true]
  exact drawNat_le g 3 (tot + 1) kk

theorem genSlots_false_le (g : ℕ → ℚ) (tot kk : ℕ) (htot : 3 ≤ tot)
    (h0 : 0 ≤ g kk) (h1 : g kk < 1) : (genSlots g false tot kk).1 ≤ tot := by
  unfold genSlots
  rw [if_neg Bool.false_ne_true]
  have := drawNat_lt g 3 (tot + 1) kk (by omega) h0 h1
  omega

theorem genEsc_alta (g : ℕ → ℚ) (pr : String) (kk : ℕ)
    (h : (genEsc g pr kk).1 = true) : pr = "Alta" := by
  unfold genEsc at h
  by_cases hpr : pr = "Alta"
  · exact hpr
  · rw [if_neg hpr] at h
    exact absurd h (by simp)

theorem genDelay_alta (g : ℕ → ℚ) (pr : String) (kk : ℕ) (f : ℚ → ℚ)
    (h : ((genDelay g pr kk).1.map f).isSome = true) : pr = "Alta" := by
  unfold genDelay at h
  by_cases hpr : pr = "Alta"
  · exact hpr
  · rw [if_neg hpr] at h
    simp at h

/-- The C8 row invariants hold for every row the generation loop emits. -/
theorem genRow_c8 (g : ℕ → ℚ) (hg : ValidSeq g) (start : ℚ) (i kk : ℕ) :
    C8Prop (genRow g start i kk).1 := by
  unfold genRow C8Prop
  dsimp only
  refine ⟨?_, ?_, ?_, ?_⟩
  · intro h
    rw [h]
    exact ⟨genSlots_true_lt g 6 _ (by norm_num) (hg _).1 (hg _).2, rfl⟩
  · intro h
    rw [h]
    exact ⟨genSlots_false_ge g 6 _, genSlots_false_le g 6 _ (by norm_num) (hg _).1 (hg _).2⟩
  · intro h
    exact congrArg some (genEsc_alta g _ _ h)
  · intro h
    exact congrArg some (genDelay_alta g _ _ _ h)

theorem genRows_length (g : ℕ → ℚ) (start : ℚ) :
    ∀ n i kk : ℕ, (genRows g start n i kk).length = n := by
  intro n
  induction n with
  | zero => intro i kk; rfl
  | succ m ih =>
    intro i kk
    rw [genRows]
    simp [ih]

theorem genRows_c8 (g : ℕ → ℚ) (hg : ValidSeq g) (start : ℚ) :
    ∀ n i kk : ℕ, ∀ r ∈ genRows g start n i kk, C8Prop r := by
  intro n
  induction n with
  | zero => intro i kk r hr; simp [genRows] at hr
  | succ m ih =>
    intro i kk r hr
    rw [genRows] at hr
    rcases List.mem_cons.mp hr with hhead | htail
    · rw [hhead]
      exact genRow_c8 g hg start i kk
    · exact ih (i + 1) _ r htail

/-- C8: for every valid uniform stream the Synthetic Generator returns
exactly `num_rows` rows (it is a total function, so it always terminates),
and every row satisfies: abandoned rows have `slots_filled < slots_total`
and null `completed_at`; non-abandoned rows have
`3 ≤ slots_filled ≤ slots_total`; `escalated` implies priority `"Alta"`;
and `notification_sent_at` is non-null only for priority `"Alta"`. -/
theorem C8_synthetic_generator (g : ℕ → ℚ) (hg : ValidSeq g) (start : ℚ) (num kk : ℕ) :
    (generate_synthetic_data g start num kk).length = num ∧
    ∀ r ∈ generate_synthetic_data g start num kk, C8Prop r :=
  ⟨genRows_length g start num 0 kk, fun r hr => genRows_c8 g hg start num 0 kk r hr⟩

/-- Witness for `C8_synthetic_generator` on a concrete stream and row
count. -/
theorem C8_witness :
    ValidSeq g0 ∧ (generate_synthetic_data g0 0 2 0).length = 2 ∧
      ∀ r ∈ generate_synthetic_data g0 0 2 0, C8Prop r := by
  have hg : ValidSeq g0 := by
    intro n
    constructor <;> norm_num [g0]
  obtain ⟨h1, h2⟩ := C8_synthetic_generator g0 hg 0 2 0
  exact ⟨hg, h1, h2⟩

theorem pyStrAux_fuel : ∀ f1 f2 n : ℕ, n < f1 → n < f2 → pyStrAux f1 n = pyStrAux f2 n := by
  intro f1
  induction f1 with
  | zero => intro f2 n h1 _; omega
  | succ m ih =>
    intro f2 n h1 h2
    cases f2 with
    | zero => omega
    | succ m2 =>
      rw [pyStrAux, pyStrAux]
      by_cases hn : n < 10
      · rw [if_pos hn, if_pos hn]
      · rw [if_neg hn, if_neg hn]
        have hdiv : n / 10 < n := Nat.div_lt_self (by omega) (by norm_num)
        rw [ih m2 (n / 10) (by omega) (by omega)]

theorem pyStrAux_val : ∀ fuel n : ℕ, n < fuel → digitsVal (pyStrAux fuel n) = n := by
  intro fuel
  induction fuel with
  | zero => intro n h; omega
  | succ m ih =>
    intro n h
    rw [pyStrAux]
    by_cases hn : n < 10
    · rw [if_pos hn]
      have hd : ∀ mm, mm < 10 → digitsVal [Nat.digitChar mm] = mm := by decide
      exact hd n hn
    · rw [if_neg hn]
      unfold digitsVal
      rw [List.foldl_append]
      have h1 : digitsVal (pyStrAux m (n / 10)) = n / 10 := by
        have hdiv : n / 10 < n := Nat.div_lt_self (by omega) (by norm_num)
        exact ih (n / 10) (by omega)
      have h2 : ∀ mm, mm < 10 → (Nat.digitChar mm).toNat - 48 = mm := by decide
      unfold digitsVal at h1
      show 10 * (List.foldl _ 0 (pyStrAux m (n / 10))) + ((Nat.digitChar (n % 10)).toNat - 48) = n
      rw [h1, h2 (n % 10) (Nat.mod_lt n (by norm_num))]
      omega

theorem pyStr_inj : Function.Injective pyStr := by
  intro a b h
  unfold pyStr at h
  have hl : pyStrAux (a + 1) a = pyStrAux (b + 1) b := by
    have := congrArg String.data h
    simpa using this
  have ha := pyStrAux_val (a + 1) a (by omega)
  have hb := pyStrAux_val (b + 1) b (by omega)
  rw [hl] at ha
  rw [hb] at ha
  exact ha.symm

theorem pyStrAux_digits :
    ∀ fuel n : ℕ, ∀ c ∈ pyStrAux fuel n,
      c ∈ ['0', '1', '2', '3', '4', '5', '6', '7', '8', '9'] := by
  intro fuel
  induction fuel with
  | zero => intro n c hc; simp [pyStrAux] at hc
  | succ m ih =>
    intro n c hc
    rw [pyStrAux] at hc
    have hdig : ∀ mm, mm < 10 →
        Nat.digitChar mm ∈ ['0', '1', '2', '3', '4', '5', '6', '7', '8', '9'] := by decide
    by_cases hn : n < 10
    · rw [if_pos hn] at hc
      rcases List.mem_singleton.mp hc with rfl
      exact hdig n hn
    · rw [if_neg hn] at hc
      rcases List.mem_append.mp hc with hleft | hright
      · exact ih (n / 10) c hleft
      · rcases List.mem_singleton.mp hright with rfl
        exact hdig (n % 10) (Nat.mod_lt n (by omega))

theorem pyStr_ne_empty (n : ℕ) : pyStr n ≠ "" := by
  unfold pyStr
  intro h
  have hl : pyStrAux (n + 1) n = [] := by
    have := congrArg String.data h
    simpa using this
  rw [pyStrAux] at hl
  by_cases hn : n < 10
  · rw [if_pos hn] at hl
    cases hl
  · rw [if_neg hn] at hl
    simp at hl

theorem pyStr_ne_none_lit (n : ℕ) : pyStr n ≠ "None" := by
  unfold pyStr
  intro h
  have hl : pyStrAux (n + 1) n = ['N', 'o', 'n', 'e'] := by
    have := congrArg String.data h
    simpa using this
  have := pyStrAux_digits (n + 1) n 'N' (by rw [hl]; simp)
  simp at this

theorem mkSessionRecord_cid (fl : ColFlags) (sk : List (Option String × LogRow)) (k : String) :
    (mkSessionRecord fl sk k).conversation_id = some k := rfl

/-- With all three behaviour-relevant columns present, the aggregator
returns exactly the summary records of the valid session keys, in key
order. -/
theorem transform_ok_ids (f : LogFrame) (ht : f.cols.hasTimestamp = true)
    (hm : f.cols.hasMessage = true) (hc : f.cols.hasComponent = true) :
    transform_logs_to_sessions f =
      .ok (((sessionKeys f.cols f.rows).filter (fun k => !(k == "" || k == "None"))).map
        (mkSessionRecord f.cols (sortedKeyed f.cols f.rows))) := by
  unfold transform_logs_to_sessions
  rw [if_neg (by simp [ht]), buildSessions_ok _ _ hm hc]

/-- C3 (amended): the winning session-id field is chosen once, globally;
every output record's `conversation_id` is one of the distinct non-null
values of that field (so rows lacking a value in it produce no record —
they are dropped, not rekeyed); the positional fallback identifier is used
only when no candidate column has any non-null value, in which case every
row yields exactly one record. -/
theorem C3_winning_field_amended (f : LogFrame) (ht : f.cols.hasTimestamp = true)
    (hm : f.cols.hasMessage = true) (hc : f.cols.hasComponent = true) :
    (∀ c, pickSessionCol f.cols f.rows = some c →
      ∃ out, transform_logs_to_sessions f = .ok out ∧
        (out.map fun r => r.conversation_id) =
          ((sessionKeys f.cols f.rows).filter (fun k => !(k == "" || k == "None"))).map some ∧
        ∀ k ∈ sessionKeys f.cols f.rows, ∃ r ∈ f.rows, readCand f.cols c r = some k) ∧
    (pickSessionCol f.cols f.rows = none →
      ∃ out, transform_logs_to_sessions f = .ok out ∧ out.length = f.rows.length) := by
  constructor
  · intro c hcpick
    refine ⟨_, transform_ok_ids f ht hm hc, ?_, ?_⟩
    · rw [List.map_map]
      rfl
    · intro k hk
      have hk1 : k ∈ ((sortedKeyed f.cols f.rows).filterMap Prod.fst).dedup := by
        simpa [sessionKeys] using hk
      have hk2 : k ∈ (sortedKeyed f.cols f.rows).filterMap Prod.fst := List.mem_dedup.mp hk1
      obtain ⟨p, hp, hpk⟩ := List.mem_filterMap.mp hk2
      have hp2 : p ∈ keyedRows f.cols f.rows := by
        simpa [sortedKeyed] using hp
      rw [keyedRows, hcpick] at hp2
      obtain ⟨r, hr, rfl⟩ := List.mem_map.mp hp2
      exact ⟨r, hr, hpk⟩
  · intro hnone
    refine ⟨_, transform_ok_ids f ht hm hc, ?_⟩
    rw [List.length_map]
    have hkeyed : keyedRows f.cols f.rows =
        f.rows.enum.map (fun p => (some (pyStr p.1), p.2)) := by
      rw [keyedRows, hnone]
    have hfm : (keyedRows f.cols f.rows).filterMap Prod.fst =
        f.rows.enum.map (fun p => pyStr p.1) := by
      rw [hkeyed, List.filterMap_map]
      exact congrFun (List.filterMap_eq_map fun p => pyStr p.1) f.rows.enum
    have hperm : ((sortedKeyed f.cols f.rows).filterMap Prod.fst).Perm
        (f.rows.enum.map (fun p => pyStr p.1)) := by
      rw [← hfm]
      exact (List.perm_insertionSort _ _).filterMap _
    have hmapped : f.rows.enum.map (fun p => pyStr p.1) =
        (List.range f.rows.length).map pyStr := by
      rw [← List.enum_map_fst f.rows, List.map_map]
      rfl
    have hnd : ((sortedKeyed f.cols f.rows).filterMap Prod.fst).Nodup := by
      apply hperm.nodup_iff.mpr
      rw [hmapped]
      exact List.Nodup.map pyStr_inj (List.nodup_range _)
    have hded : ((sortedKeyed f.cols f.rows).filterMap Prod.fst).dedup =
        (sortedKeyed f.cols f.rows).filterMap Prod.fst := List.dedup_eq_self.mpr hnd
    have hall : ∀ k ∈ sessionKeys f.cols f.rows, (!(k == "" || k == "None")) = true := by
      intro k hk
      have hk2 : k ∈ (sortedKeyed f.cols f.rows).filterMap Prod.fst := by
        simpa [sessionKeys, hded] using hk
      have hk3 : k ∈ (List.range f.rows.length).map pyStr := by
        rw [← hmapped]
        exact hperm.mem_iff.mp hk2
      obtain ⟨i, _, rfl⟩ := List.mem_map.mp hk3
      simp [pyStr_ne_empty i, pyStr_ne_none_lit i]
    rw [List.filter_eq_self.mpr hall]
    have h1 : (sessionKeys f.cols f.rows).length =
        ((sortedKeyed f.cols f.rows).filterMap Prod.fst).length := by
      rw [sessionKeys, hded]
      exact (List.perm_insertionSort _ _).length_eq
    rw [h1, hperm.length_eq, hmapped]
    simp

/-- Witness for `C3_winning_field_amended` at the concrete two-row frame
(`dialogflowSessionId` wins). -/
theorem C3_witness :
    ∃ out, transform_logs_to_sessions c3frame = .ok out ∧
      (out.map fun r => r.conversation_id) =
        ((sessionKeys c3frame.cols c3frame.rows).filter
          (fun k => !(k == "" || k == "None"))).map some ∧
      ∀ k ∈ sessionKeys c3frame.cols c3frame.rows,
        ∃ r ∈ c3frame.rows, readCand c3frame.cols SessCand.dfSess r = some k :=
  (C3_winning_field_amended c3frame rfl rfl rfl).1 SessCand.dfSess (by decide)

theorem perm_any {α : Type} {l1 l2 : List α} (hp : l1.Perm l2) (f : α → Bool) :
    l1.any f = l2.any f := by
  by_cases h : ∃ x ∈ l1, f x = true
  · obtain ⟨x, hx, hfx⟩ := h
    rw [List.any_eq_true.mpr ⟨x, hx, hfx⟩,
      List.any_eq_true.mpr ⟨x, hp.mem_iff.mp hx, hfx⟩]
  · have h1 : l1.any f = false := by
      rw [← Bool.not_eq_true]
      intro hc
      exact h (List.any_eq_true.mp hc)
    have h2 : l2.any f = false := by
      rw [← Bool.not_eq_true]
      intro hc
      obtain ⟨x, hx, hfx⟩ := List.any_eq_true.mp hc
      exact h ⟨x, hp.mem_iff.mpr hx, hfx⟩
    rw [h1, h2]

theorem pick_perm (fl : ColFlags) {r1 r2 : List LogRow} (hp : r1.Perm r2) :
    pickSessionCol fl r1 = pickSessionCol fl r2 := by
  unfold pickSessionCol
  congr 1
  funext c
  exact perm_any hp _

theorem tsKey_inj : Function.Injective tsKey := by
  intro a b h
  cases a <;> cases b <;> simp_all [tsKey]

/-- When the timestamps of `l` are pairwise distinct, the stable sort is
sorted for the strict order. -/
theorem sorted_strict (l : List (Option String × LogRow))
    (hnd : (l.map (fun p => p.2.timestamp)).Nodup) :
    List.Sorted tsLt (List.insertionSort tsLe l) := by
  have hs : List.Sorted tsLe (List.insertionSort tsLe l) := List.sorted_insertionSort tsLe l
  have hnd2 : ((List.insertionSort tsLe l).map (fun p => p.2.timestamp)).Nodup :=
    (((List.perm_insertionSort tsLe l).map _).nodup_iff).mpr hnd
  have hne : (List.insertionSort tsLe l).Pairwise
      (fun a b => a.2.timestamp ≠ b.2.timestamp) := by
    rw [List.Nodup, List.pairwise_map] at hnd2
    exact hnd2
  exact (List.Pairwise.and hs hne).imp
    (fun hab => lt_of_le_of_ne hab.1 (fun he => hab.2 (tsKey_inj he)))

/-- With a winning candidate column and pairwise-distinct timestamps, the
sorted keyed frame does not depend on the input row order. -/
theorem sortedKeyed_perm_eq (fl : ColFlags) {rows1 rows2 : List LogRow}
    (hperm : rows1.Perm rows2)
    (hcand : (pickSessionCol fl rows1).isSome = true)
    (hts : (rows1.map (fun r => r.timestamp)).Nodup) :
    sortedKeyed fl rows1 = sortedKeyed fl rows2 := by
  obtain ⟨c, hc⟩ := Option.isSome_iff_exists.mp hcand
  have hc2 : pickSessionCol fl rows2 = some c := by
    rw [← pick_perm fl hperm]
    exact hc
  have hk1 : keyedRows fl rows1 = rows1.map (fun r => (readCand fl c r, r)) := by
    rw [keyedRows, hc]
  have hk2 : keyedRows fl rows2 = rows2.map (fun r => (readCand fl c r, r)) := by
    rw [keyedRows, hc2]
  have hkp : (keyedRows fl rows1).Perm (keyedRows fl rows2) := by
    rw [hk1, hk2]
    exact hperm.map _
  have hnd1 : ((keyedRows fl rows1).map (fun p => p.2.timestamp)).Nodup := by
    rw [hk1, List.map_map]
    exact hts
  have hnd2 : ((keyedRows fl rows2).map (fun p => p.2.timestamp)).Nodup :=
    ((hkp.map _).nodup_iff).mp hnd1
  have sp : (List.insertionSort tsLe (keyedRows fl rows1)).Perm
      (List.insertionSort tsLe (keyedRows fl rows2)) :=
    (List.perm_insertionSort tsLe _).trans (hkp.trans (List.perm_insertionSort tsLe _).symm)
  exact List.eq_of_perm_of_sorted sp (sorted_strict _ hnd1) (sorted_strict _ hnd2)

/-- C9 (amended): the Session Aggregator is deterministic, and it is
invariant under permutations of the input rows provided a session-id
candidate column wins (no positional index fallback, cf.
`C9_counterexample`) and the timestamps are pairwise distinct (so the
internal sort leaves no order ambiguity). -/
theorem C9_perm_invariant_amended (fl : ColFlags) (rows1 rows2 : List LogRow)
    (hperm : rows1.Perm rows2)
    (hcand : (pickSessionCol fl rows1).isSome = true)
    (hts : (rows1.map (fun r => r.timestamp)).Nodup) :
    transform_logs_to_sessions ⟨fl, rows1⟩ = transform_logs_to_sessions ⟨fl, rows2⟩ := by
  have hsk : sortedKeyed fl rows1 = sortedKeyed fl rows2 :=
    sortedKeyed_perm_eq fl hperm hcand hts
  simp only [transform_logs_to_sessions, sessionKeys, hsk]

/-- Witness for `C9_perm_invariant_amended`: the C5 scenario frame and a
swapped ordering of it aggregate identically. -/
theorem C9_witness :
    transform_logs_to_sessions c5frame = transform_logs_to_sessions c5frameSwapped :=
  C9_perm_invariant_amended defCols [c5r1, c5r2, c5r3] [c5r2, c5r1, c5r3]
    (List.Perm.swap c5r2 c5r1 [c5r3]) rfl (by decide)
